import Mathlib

/-!
# Verification of the femcare-backend messaging workflow

A shallow embedding of the messaging engine of `src/routes/messages.py`
together with the data model of `src/models/message.py`,
`src/models/notification.py`, `src/models/post.py` and the request schemas
of `src/pydantic_schemas/message.py`, and proofs / refutations of the
specified properties of the Message Request → Conversation → Message
state machine.

Modelling conventions:

* SQLAlchemy tables become lists of records inside a `DB` state; a
  `db.query(...).filter(...).first()` becomes `List.find?`, a bulk
  `.delete()` becomes `List.filter`, an attribute mutation plus
  `db.commit()` becomes a `List.map` replacing the touched row.
* `uuid.uuid4()` is nondeterministic; each endpoint takes the ids it
  generates as explicit arguments supplied by the environment.
* `func.now()` server timestamps are drawn from a store clock `DB.now`
  that advances at every insert, so stored timestamps are strictly
  increasing in insertion order (the monotone assignment the store
  guarantees).
* FastAPI query parameters that default to `None` (`sender_id`,
  `user_id`) are `Option String`; a SQL comparison of a column against
  `NULL` matches no row, which the embedding renders by lifting column
  values with `some` before comparing.
* `raise HTTPException(...)` becomes returning `Except.error` with the
  status code and detail; the endpoints' state is threaded explicitly, so
  each endpoint returns its response together with the post-call `DB`.
-/

/-- `models.message.MessageRequestStatus` (a plain `enum.Enum`). -/
inductive MessageRequestStatus where
  | pending
  | accepted
  | rejected
deriving DecidableEq, Repr

/-- `models.message.MessageStatus` (a plain `enum.Enum`): the three values
the `messages.status` column admits. -/
inductive MessageStatus where
  | sent
  | delivered
  | read
deriving DecidableEq, Repr

/-- `pydantic_schemas.message.MessageStatus` (a `str`-valued enum): the six
values the `MessageUpdate.status` request field admits — the three
request-phase names on top of the three column values. -/
inductive SchemaMessageStatus where
  | requested
  | accepted
  | rejected
  | sent
  | delivered
  | read
deriving DecidableEq, Repr

/-- `models.notification.NotificationContentType`. -/
inductive NotificationContentType where
  | post
  | comment
  | message
deriving DecidableEq, Repr

/-- `models.post.PostCategory`: the single category left after the others
moved to `CommunityContentPost`. -/
inductive PostCategory where
  | vent
deriving DecidableEq, Repr

/-- `PostCategory.value` as read by `post.category.value` in
`create_message_request`. -/
def PostCategory.value : PostCategory → String
  | .vent => "vent"

/-- A row of the `users` table (`models/user.py`); only the columns the
messaging routes read. `name` is nullable. -/
structure UserRec where
  id : String
  name : Option String
deriving DecidableEq, Repr

/-- A row of the `posts` table (`models/post.py`); only the columns the
messaging routes read. `user_id` is nullable. -/
structure PostRec where
  id : String
  user_id : Option String
  category : PostCategory
deriving DecidableEq, Repr

/-- A row of the `message_requests` table (`models/message.py`). -/
structure MessageRequestRec where
  id : String
  sender_id : String
  receiver_id : String
  post_id : String
  initial_message : String
  timestamp : Nat
  status : MessageRequestStatus
deriving DecidableEq, Repr

/-- A row of the `conversations` table (`models/message.py`). -/
structure ConversationRec where
  id : String
  user1_id : String
  user2_id : String
  request_id : String
  created_at : Nat
deriving DecidableEq, Repr

/-- A row of the `messages` table (`models/message.py`). -/
structure MessageRec where
  id : String
  conversation_id : String
  sender_id : String
  content : String
  timestamp : Nat
  status : MessageStatus
deriving DecidableEq, Repr

/-- A row of the `notifications` table (`models/notification.py`).
`user_id` is `Option String` because the `Notification` constructor call
in `send_notification` (routes/messages.py lines 49–55) omits it, leaving
the attribute `None` — even though the column is declared
`nullable=False`. -/
structure NotificationRec where
  id : String
  user_id : Option String
  message : String
  is_read : Bool
  timestamp : Nat
  related_content_type : Option NotificationContentType
  related_content_id : Option String
deriving DecidableEq, Repr

/-- The relational store the messaging routes operate on. -/
structure DB where
  users : List UserRec
  posts : List PostRec
  message_requests : List MessageRequestRec
  conversations : List ConversationRec
  messages : List MessageRec
  notifications : List NotificationRec
  now : Nat
deriving DecidableEq, Repr

/-- A `fastapi.HTTPException`: status code and detail string. -/
structure HttpException where
  status_code : Nat
  detail : String
deriving DecidableEq, Repr

/-- `send_notification` (routes/messages.py lines 39–59). The `user_id`
parameter is accepted but NOT passed to the `Notification` constructor
(lines 49–55), so the stored row's `user_id` attribute is `None`; the
embedding records that as `none`. (The column is declared
`nullable=False` in `models/notification.py`, so on a live store this
insert would in fact be rejected; the embedding keeps the row as the code
builds it, which already shows the notification never carries its
intended recipient.) -/
def send_notification (db : DB) (user_id : String) (message : String)
    (related_content_type : Option NotificationContentType)
    (related_content_id : Option String) (notifId : String) :
    NotificationRec × DB :=
  let notification : NotificationRec :=
    { id := notifId
      user_id := none
      message := message
      is_read := false
      timestamp := db.now
      related_content_type := related_content_type
      related_content_id := related_content_id }
  (notification,
    { db with
        notifications := db.notifications ++ [notification]
        now := db.now + 1 })

/-- `create_message_request` (routes/messages.py lines 65–161), `POST
/requests`. `sender_id` is a query parameter defaulting to `None`; with
`None` the sender lookup compares the `id` column against SQL `NULL` and
finds nothing, hence 404. -/
def create_message_request (db : DB) (sender_id : Option String)
    (receiver_id post_id initial_message : String)
    (reqId notifId : String) :
    Except HttpException MessageRequestRec × DB :=
  match sender_id with
  | none => (.error ⟨404, "Sender user not found"⟩, db)
  | some s =>
    if (db.users.find? (fun u => u.id == s)).isNone then
      (.error ⟨404, "Sender user not found"⟩, db)
    else if (db.users.find? (fun u => u.id == receiver_id)).isNone then
      (.error ⟨404, "Receiver user not found"⟩, db)
    else
      match db.posts.find? (fun p => p.id == post_id) with
      | none => (.error ⟨404, "Post not found"⟩, db)
      | some post =>
        if post.category.value != "vent" then
          (.error ⟨400, "Message requests can only be linked to vent posts"⟩, db)
        else if post.user_id != some receiver_id then
          (.error ⟨400, "Receiver must be the vent post owner"⟩, db)
        else if (db.message_requests.find? (fun r =>
            r.sender_id == s && r.receiver_id == receiver_id
              && r.post_id == post_id
              && r.status == MessageRequestStatus.pending)).isSome then
          (.error ⟨400, "A pending request already exists for this post"⟩, db)
        else if (db.conversations.find? (fun c =>
            (c.user1_id == s && c.user2_id == receiver_id)
              || (c.user1_id == receiver_id && c.user2_id == s))).isSome then
          (.error ⟨400, "A conversation already exists between these users"⟩, db)
        else
          let db_request : MessageRequestRec :=
            { id := reqId
              sender_id := s
              receiver_id := receiver_id
              post_id := post_id
              initial_message := initial_message
              timestamp := db.now
              status := MessageRequestStatus.pending }
          let db1 : DB :=
            { db with
                message_requests := db.message_requests ++ [db_request]
                now := db.now + 1 }
          let step := send_notification db1 receiver_id
            "Someone wants to talk about your vent post"
            (some NotificationContentType.post) (some post_id) notifId
          (.ok db_request, step.2)

/-- Python equality between the `str` field `MessageRequestUpdate.status`
(`pydantic_schemas/message.py` line 47: `status: str`) and a member of
the plain `enum.Enum` `models.message.MessageRequestStatus`:
`str.__eq__` returns `NotImplemented` for a non-`str` operand and
`enum.Enum` falls back to identity comparison, so the comparison is
`False` for every string, including `"accepted"` and `"rejected"`. -/
def pyStrEqRequestStatus (s : String) (m : MessageRequestStatus) : Bool :=
  false

/-- The membership gate of `respond_to_message_request` (routes/messages.py
lines 228–234): the payload string passes only if the `in`-test against
`[MessageRequestStatus.accepted, MessageRequestStatus.rejected]`
classifies it, in which case the later `==`-branch at line 240 (the same
cross-type comparison) picks accept or reject. Because
`pyStrEqRequestStatus` is constantly `false`, this is `none` for every
payload. -/
def validDecision (response_status : String) : Option MessageRequestStatus :=
  if pyStrEqRequestStatus response_status MessageRequestStatus.accepted then
    some MessageRequestStatus.accepted
  else if pyStrEqRequestStatus response_status MessageRequestStatus.rejected then
    some MessageRequestStatus.rejected
  else
    none

/-- The response dict built by `respond_to_message_request` on lines
272–280 / 291–295: `data.conversation_id` is present only on accept. -/
structure RespondResult where
  message : String
  type : String
  conversation_id : Option String
  request_id : String
  status : MessageRequestStatus
deriving DecidableEq, Repr

/-- Lines 236–295 of `respond_to_message_request`: the tail of the endpoint
after the status gate, acting on an already-validated decision — set the
request's status and commit; on accept create the `Conversation`, insert
the request's `initial_message` as the first `Message` (status `sent`,
authored by the original sender) and commit, then notify the sender; on
reject only notify the sender. In the deployed endpoint this tail is
unreachable (the gate rejects every payload, see `pyStrEqRequestStatus`),
so it is embedded separately with the decision at the enum type the
gate's error message names. -/
def respondDecision (db : DB) (message_request : MessageRequestRec)
    (decision : MessageRequestStatus) (convId msgId notifId : String) :
    RespondResult × DB :=
  let db0 : DB :=
    { db with
        message_requests := db.message_requests.map (fun r =>
          if r.id == message_request.id then { r with status := decision } else r) }
  if decision == MessageRequestStatus.accepted then
    let conversation : ConversationRec :=
      { id := convId
        user1_id := message_request.sender_id
        user2_id := message_request.receiver_id
        request_id := message_request.id
        created_at := db0.now }
    let db1 : DB :=
      { db0 with
          conversations := db0.conversations ++ [conversation]
          now := db0.now + 1 }
    let initial_message : MessageRec :=
      { id := msgId
        conversation_id := conversation.id
        sender_id := message_request.sender_id
        content := message_request.initial_message
        timestamp := db1.now
        status := MessageStatus.sent }
    let db2 : DB :=
      { db1 with
          messages := db1.messages ++ [initial_message]
          now := db1.now + 1 }
    let step := send_notification db2 message_request.sender_id
      "Your message request was accepted! You can now start chatting."
      (some NotificationContentType.post) (some message_request.post_id) notifId
    ({ message := "Request accepted, conversation created"
       type := "success"
       conversation_id := some conversation.id
       request_id := message_request.id
       status := decision }, step.2)
  else
    let step := send_notification db0 message_request.sender_id
      "Your message request was declined."
      (some NotificationContentType.post) (some message_request.post_id) notifId
    ({ message := "Request rejected"
       type := "info"
       conversation_id := none
       request_id := message_request.id
       status := decision }, step.2)

/-- `respond_to_message_request` (routes/messages.py lines 197–295), `POST
/requests/{request_id}/respond`. `response_status` is the raw string of
`MessageRequestUpdate.status`; `user_id` is a query parameter defaulting
to `None`. -/
def respond_to_message_request (db : DB) (request_id : String)
    (response_status : String) (user_id : Option String)
    (convId msgId notifId : String) :
    Except HttpException RespondResult × DB :=
  match db.message_requests.find? (fun r => r.id == request_id) with
  | none => (.error ⟨404, "Message request not found"⟩, db)
  | some message_request =>
    if some message_request.receiver_id != user_id then
      (.error ⟨403, "Only the message receiver can respond to requests"⟩, db)
    else if message_request.status != MessageRequestStatus.pending then
      (.error ⟨400, "This request has already been processed"⟩, db)
    else
      match validDecision response_status with
      | none =>
        (.error ⟨400, "Status must be accepted or rejected"⟩, db)
      | some decision =>
        let step := respondDecision db message_request decision convId msgId notifId
        (.ok step.1, step.2)

/-- Stable insertion into a timestamp-ordered list: the helper of the
embedding of `.order_by(Message.timestamp)`. -/
def insertByTimestamp (m : MessageRec) : List MessageRec → List MessageRec
  | [] => [m]
  | n :: rest =>
    if m.timestamp ≤ n.timestamp then m :: n :: rest
    else n :: insertByTimestamp m rest

/-- `.order_by(Message.timestamp)` of the message query in
`get_conversation_messages`: a stable ascending sort on the
server-assigned `timestamp` column. -/
def orderByTimestamp : List MessageRec → List MessageRec
  | [] => []
  | m :: rest => insertByTimestamp m (orderByTimestamp rest)

/-- The per-row effect of the read-marking loop of
`get_conversation_messages` (routes/messages.py lines 394–396): a message
authored by someone other than the requesting user and not yet `read` is
advanced to `read`. -/
def markRead (user_id : Option String) (m : MessageRec) : MessageRec :=
  if some m.sender_id != user_id && m.status != MessageStatus.read then
    { m with status := MessageStatus.read }
  else m

/-- The effect of the read-marking loop on a row of the `messages` table:
the loop iterates over exactly the rows of the requested conversation (the
query's result objects are the session's rows), so a row of this
conversation is `markRead`-ed and every other row is untouched. -/
def markIf (user_id : Option String) (conversation_id : String)
    (m : MessageRec) : MessageRec :=
  if m.conversation_id == conversation_id then markRead user_id m else m

/-- `get_conversation_messages` (routes/messages.py lines 363–400), `GET
/conversations/{conversation_id}/messages`. Returns the conversation's
messages ordered by timestamp; the loop mutates the queried row objects
in place (they are the session's rows for this conversation), so the
committed store applies `markRead` to exactly the rows of this
conversation, and the response carries the mutated rows. -/
def get_conversation_messages (db : DB) (conversation_id : String)
    (user_id : Option String) :
    Except HttpException (List MessageRec) × DB :=
  match db.conversations.find? (fun c => c.id == conversation_id) with
  | none => (.error ⟨404, "Conversation not found"⟩, db)
  | some conversation =>
    if !(user_id == some conversation.user1_id
        || user_id == some conversation.user2_id) then
      (.error ⟨403, "You are not authorized to view this conversation"⟩, db)
    else
      let messages :=
        orderByTimestamp (db.messages.filter (fun m =>
          m.conversation_id == conversation_id))
      let marked := messages.map (markRead user_id)
      (.ok marked,
        { db with
            messages := db.messages.map (markIf user_id conversation_id) })

/-- The value the SQLAlchemy `Enum(MessageStatus)` column lookup accepts at
flush time for a member of the pydantic `MessageStatus` enum: the three
members whose name is also a `models.message.MessageStatus` name hash and
compare equal (as strings) to a key of the column's lookup table and are
persisted under that name; the three request-phase names are not among
the defined enum values, so the flush raises (`LookupError`), the
transaction is never committed, and FastAPI surfaces a 500. -/
def statusToColumn : SchemaMessageStatus → Option MessageStatus
  | .sent => some MessageStatus.sent
  | .delivered => some MessageStatus.delivered
  | .read => some MessageStatus.read
  | _ => none

/-- `update_message_status` (routes/messages.py lines 462–504), `PATCH
/messages/{message_id}`. The body assigns `status_update.status`
unconditionally — there is no transition validation of any kind — and
commits; `statusToColumn` models what the commit does with each of the
six schema statuses. -/
def update_message_status (db : DB) (message_id : String)
    (new_status : SchemaMessageStatus) (user_id : Option String) :
    Except HttpException MessageRec × DB :=
  match db.messages.find? (fun m => m.id == message_id) with
  | none => (.error ⟨404, "Message not found"⟩, db)
  | some message =>
    match db.conversations.find? (fun c => c.id == message.conversation_id) with
    | none => (.error ⟨404, "Conversation not found"⟩, db)
    | some conversation =>
      if !(user_id == some conversation.user1_id
          || user_id == some conversation.user2_id) then
        (.error ⟨403, "You are not authorized to update messages in this conversation"⟩, db)
      else if some message.sender_id == user_id then
        (.error ⟨400, "You cannot update the status of your own messages"⟩, db)
      else
        match statusToColumn new_status with
        | some v =>
          let updated := { message with status := v }
          (.ok updated,
            { db with
                messages := db.messages.map (fun m =>
                  if m.id == message_id then updated else m) })
        | none => (.error ⟨500, "Internal Server Error"⟩, db)

/-- `delete_message_request` (routes/messages.py lines 510–535), `DELETE
/requests/{request_id}`. The `Security(get_admin_user)` dependency
rejects a non-admin caller with 403 before the body runs (`utils/auth.py`
lines 99–114); the embedding takes the outcome of that dependency as the
boolean `isAdmin`. -/
def delete_message_request (db : DB) (request_id : String) (isAdmin : Bool) :
    Except HttpException Unit × DB :=
  if !isAdmin then
    (.error ⟨403, "Admin privileges required for this operation"⟩, db)
  else if (db.message_requests.find? (fun r => r.id == request_id)).isNone then
    (.error ⟨404, "Message request not found"⟩, db)
  else if (db.conversations.find? (fun c => c.request_id == request_id)).isSome then
    (.error ⟨400, "Cannot delete request with an active conversation"⟩, db)
  else
    (.ok (),
      { db with
          message_requests := db.message_requests.filter (fun r =>
            r.id != request_id) })

/-- One iteration of the purge loop of `delete_user_data` (routes/messages.py
lines 599–604): delete every message of the conversation, then delete the
conversation row itself (by its primary key). -/
def purgeConversation (acc : DB) (conversation : ConversationRec) : DB :=
  { acc with
      messages := acc.messages.filter (fun m =>
        m.conversation_id != conversation.id)
      conversations := acc.conversations.filter (fun c =>
        c.id != conversation.id) }

/-- `delete_user_data` (routes/messages.py lines 582–616), `DELETE
/user/{user_id}/all`. For every conversation where the user is a
participant, delete its messages then the conversation; then delete every
message request where the user is sender or receiver; commit once at the
end. -/
def delete_user_data (db : DB) (user_id : String) (isAdmin : Bool) :
    Except HttpException Unit × DB :=
  if !isAdmin then
    (.error ⟨403, "Admin privileges required for this operation"⟩, db)
  else
    let conversations := db.conversations.filter (fun c =>
      c.user1_id == user_id || c.user2_id == user_id)
    let db1 := conversations.foldl purgeConversation db
    (.ok (),
      { db1 with
          message_requests := db1.message_requests.filter (fun r =>
            !(r.sender_id == user_id || r.receiver_id == user_id)) })

/-! ## Concrete stores used as witnesses and counterexamples -/

/-- Store with two pending requests between users `a` and `b` in opposite
directions about each other's vent posts — a state reachable by two
`create_message_request` calls while no conversation exists yet. -/
def c1db : DB :=
  { users := [{ id := "a", name := none }, { id := "b", name := none }]
    posts := [{ id := "p1", user_id := some "b", category := .vent },
              { id := "p2", user_id := some "a", category := .vent }]
    message_requests :=
      [{ id := "q1", sender_id := "a", receiver_id := "b", post_id := "p1",
         initial_message := "hi b", timestamp := 0, status := .pending },
       { id := "q2", sender_id := "b", receiver_id := "a", post_id := "p2",
         initial_message := "hi a", timestamp := 1, status := .pending }]
    conversations := []
    messages := []
    notifications := []
    now := 2 }

/-- The first pending request of `c1db`. -/
def c1req1 : MessageRequestRec :=
  { id := "q1", sender_id := "a", receiver_id := "b", post_id := "p1",
    initial_message := "hi b", timestamp := 0, status := .pending }

/-- The second pending request of `c1db`. -/
def c1req2 : MessageRequestRec :=
  { id := "q2", sender_id := "b", receiver_id := "a", post_id := "p2",
    initial_message := "hi a", timestamp := 1, status := .pending }

/-- The store after the first accept has committed on `c1db`. -/
def c1s1 : DB := (respondDecision c1db c1req1 .accepted "c1" "m1" "n1").2

/-- Empty store for the C2 witness. -/
def c2db : DB :=
  { users := [], posts := [], message_requests := [], conversations := [],
    messages := [], notifications := [], now := 0 }

/-- The pending request of `c3db`: sender `s` to receiver `r` about vent
post `v`. -/
def c3req : MessageRequestRec :=
  { id := "q1", sender_id := "s", receiver_id := "r", post_id := "v",
    initial_message := "here to talk", timestamp := 0, status := .pending }

/-- Store with one pending request from `s` to `r` about `r`'s vent post
`v`. -/
def c3db : DB :=
  { users := [{ id := "s", name := none }, { id := "r", name := none }]
    posts := [{ id := "v", user_id := some "r", category := .vent }]
    message_requests := [c3req]
    conversations := []
    messages := []
    notifications := []
    now := 1 }

/-- Store with a conversation between `u` and `v` holding one message from
`u` already at status `read`. -/
def c4db : DB :=
  { users := [{ id := "u", name := none }, { id := "v", name := none }]
    posts := []
    message_requests := []
    conversations := [{ id := "c1", user1_id := "u", user2_id := "v",
                        request_id := "q1", created_at := 0 }]
    messages := [{ id := "m1", conversation_id := "c1", sender_id := "u",
                   content := "hi", timestamp := 0, status := .read }]
    notifications := []
    now := 1 }

/-- Store with a conversation between `u` and `v` holding one message sent
by `u`. -/
def c5db : DB :=
  { users := [{ id := "u", name := none }, { id := "v", name := none }]
    posts := []
    message_requests := []
    conversations := [{ id := "c1", user1_id := "u", user2_id := "v",
                        request_id := "q1", created_at := 0 }]
    messages := [{ id := "m1", conversation_id := "c1", sender_id := "u",
                   content := "hi", timestamp := 0, status := .sent }]
    notifications := []
    now := 1 }

/-- Store with a single user `a` who owns vent post `p`; no requests and no
conversations. -/
def c6db : DB :=
  { users := [{ id := "a", name := none }]
    posts := [{ id := "p", user_id := some "a", category := .vent }]
    message_requests := []
    conversations := []
    messages := []
    notifications := []
    now := 0 }

/-- Store with a conversation between `u` and `v` holding two messages: one
from `v` (unread by `u`) and one from `u`. -/
def c7db : DB :=
  { users := [{ id := "u", name := none }, { id := "v", name := none }]
    posts := []
    message_requests := []
    conversations := [{ id := "c1", user1_id := "u", user2_id := "v",
                        request_id := "q1", created_at := 0 }]
    messages := [{ id := "m1", conversation_id := "c1", sender_id := "v",
                   content := "hello", timestamp := 1, status := .sent },
                 { id := "m2", conversation_id := "c1", sender_id := "u",
                   content := "hey", timestamp := 2, status := .sent }]
    notifications := []
    now := 3 }

/-- Store with a request `q1` that conversation `c1` references, and an
unreferenced request `q2`. -/
def c8db : DB :=
  { users := [{ id := "u", name := none }, { id := "v", name := none }]
    posts := []
    message_requests :=
      [{ id := "q1", sender_id := "u", receiver_id := "v", post_id := "p",
         initial_message := "hi", timestamp := 0, status := .accepted },
       { id := "q2", sender_id := "u", receiver_id := "v", post_id := "p2",
         initial_message := "hi2", timestamp := 1, status := .pending }]
    conversations := [{ id := "c1", user1_id := "u", user2_id := "v",
                        request_id := "q1", created_at := 2 }]
    messages := []
    notifications := []
    now := 3 }

/-- Store with messaging data for user `u` (a conversation with `x` and a
request) alongside unrelated data between `x` and `y`. -/
def c9db : DB :=
  { users := [{ id := "u", name := none }, { id := "x", name := none },
              { id := "y", name := none }]
    posts := []
    message_requests :=
      [{ id := "q1", sender_id := "u", receiver_id := "x", post_id := "p1",
         initial_message := "a", timestamp := 0, status := .accepted },
       { id := "q2", sender_id := "x", receiver_id := "y", post_id := "p2",
         initial_message := "b", timestamp := 1, status := .accepted },
       { id := "q3", sender_id := "y", receiver_id := "u", post_id := "p3",
         initial_message := "c", timestamp := 2, status := .pending }]
    conversations :=
      [{ id := "c1", user1_id := "u", user2_id := "x", request_id := "q1",
         created_at := 3 },
       { id := "c2", user1_id := "x", user2_id := "y", request_id := "q2",
         created_at := 4 }]
    messages :=
      [{ id := "m1", conversation_id := "c1", sender_id := "u",
         content := "a", timestamp := 5, status := .sent },
       { id := "m2", conversation_id := "c2", sender_id := "y",
         content := "b", timestamp := 6, status := .read }]
    notifications := []
    now := 7 }

/-- Store with one pending request from `s` to `r` for the C10 witness. -/
def c10db : DB :=
  { users := [{ id := "s", name := none }, { id := "r", name := none }]
    posts := [{ id := "v", user_id := some "r", category := .vent }]
    message_requests :=
      [{ id := "q1", sender_id := "s", receiver_id := "r", post_id := "v",
         initial_message := "hello", timestamp := 0, status := .pending }]
    conversations := []
    messages := []
    notifications := []
    now := 1 }

/-! ## Claim theorems -/

/-- Helper for C2: `respond_to_message_request` never changes the store —
every raise precedes any write, and the gate at lines 228–234 rejects
every payload, so no branch returns a modified store. -/
theorem respond_db_unchanged (db : DB) (request_id response_status : String)
    (user_id : Option String) (convId msgId notifId : String) :
    (respond_to_message_request db request_id response_status user_id
      convId msgId notifId).2 = db := by
  unfold respond_to_message_request
  cases hf : db.message_requests.find? (fun r => r.id == request_id) with
  | none => rfl
  | some mr =>
    simp only [validDecision, pyStrEqRequestStatus, if_false, Bool.false_eq_true]
    split <;> try rfl
    split <;> rfl

/-- Claim C2: if a `respond_to_message_request` call returns a non-2xx
response, none of its writes is persisted — the store after the call is
exactly the store before it, so in particular a pending request is still
pending and no Conversation has appeared. -/
theorem respond_non2xx_persists_nothing (db : DB)
    (request_id response_status : String) (user_id : Option String)
    (convId msgId notifId : String) (e : HttpException)
    (herr : (respond_to_message_request db request_id response_status user_id
      convId msgId notifId).1 = .error e) :
    (respond_to_message_request db request_id response_status user_id
      convId msgId notifId).2 = db :=
  respond_db_unchanged db request_id response_status user_id convId msgId notifId

/-- Witness for C2 at a concrete input: the call errors (404 here) and the
store is untouched. -/
theorem respond_non2xx_persists_nothing_witness :
    (respond_to_message_request c2db "q" "accepted" none "c" "m" "n").1
        = .error ⟨404, "Message request not found"⟩
      ∧ (respond_to_message_request c2db "q" "accepted" none "c" "m" "n").2 = c2db :=
  ⟨rfl, respond_non2xx_persists_nothing c2db "q" "accepted" none "c" "m" "n"
    ⟨404, "Message request not found"⟩ rfl⟩

/-- Claim C10: on an existing pending request, called by its receiver, the
respond endpoint rejects every payload string — including `"accepted"`
and `"rejected"` — with HTTP 400, before the status assignment, leaving
the store (request still pending, no conversation, no message, no
notification) unchanged: the `str` payload is membership-tested against
members of the plain enum `models.message.MessageRequestStatus`, which a
string never equals. -/
theorem respond_always_400_on_pending (db : DB) (request_id : String)
    (r : MessageRequestRec) (response_status : String)
    (convId msgId notifId : String)
    (hfind : db.message_requests.find? (fun q => q.id == request_id) = some r)
    (hpending : r.status = MessageRequestStatus.pending) :
    respond_to_message_request db request_id response_status
        (some r.receiver_id) convId msgId notifId
      = (.error ⟨400, "Status must be accepted or rejected"⟩, db) := by
  unfold respond_to_message_request
  rw [hfind]
  simp [hpending, validDecision, pyStrEqRequestStatus]

/-- Witness for C10 at a concrete input: the intended payload `"accepted"`,
sent by the receiver of a pending request, is rejected with 400 and
nothing changes. -/
theorem respond_always_400_on_pending_witness :
    respond_to_message_request c10db "q1" "accepted" (some "r") "c1" "m1" "n1"
      = (.error ⟨400, "Status must be accepted or rejected"⟩, c10db) :=
  respond_always_400_on_pending c10db "q1"
    { id := "q1", sender_id := "s", receiver_id := "r", post_id := "v",
      initial_message := "hello", timestamp := 0, status := .pending }
    "accepted" "c1" "m1" "n1" (by decide) rfl

/-- Counterexample to C5: the sender of message `m1` calls
`update_message_status` on their own message; the call fails with HTTP
400 (Bad Request), not HTTP 403 (Forbidden) as the claim states — the
own-message guard at routes/messages.py lines 494–497 raises
`status_code=400`. The message is unchanged. -/
theorem own_message_update_is_400_not_403 :
    (update_message_status c5db "m1" SchemaMessageStatus.read (some "u")).1
        = .error ⟨400, "You cannot update the status of your own messages"⟩
      ∧ (update_message_status c5db "m1" SchemaMessageStatus.read (some "u")).2
        = c5db
      ∧ (∀ d : String,
          (update_message_status c5db "m1" SchemaMessageStatus.read (some "u")).1
            ≠ .error ⟨403, d⟩) := by
  refine ⟨rfl, rfl, ?_⟩
  intro d h
  rw [show (update_message_status c5db "m1" SchemaMessageStatus.read (some "u")).1
      = .error ⟨400, "You cannot update the status of your own messages"⟩ from rfl] at h
  simp at h

/-- Claim C5 as amended: an `update_message_status` call made by the
message's own sender (who is a participant of the message's
conversation) always fails with HTTP **400** Bad Request — not 403 — and
leaves the store unchanged. -/
theorem own_message_update_rejected_400 (db : DB) (message_id : String)
    (m : MessageRec) (c : ConversationRec) (new_status : SchemaMessageStatus)
    (hm : db.messages.find? (fun x => x.id == message_id) = some m)
    (hc : db.conversations.find? (fun x => x.id == m.conversation_id) = some c)
    (hpart : m.sender_id = c.user1_id ∨ m.sender_id = c.user2_id) :
    update_message_status db message_id new_status (some m.sender_id)
      = (.error ⟨400, "You cannot update the status of your own messages"⟩, db) := by
  have hmem : (some m.sender_id == some c.user1_id
      || some m.sender_id == some c.user2_id) = true := by
    rcases hpart with h | h <;> simp [h]
  unfold update_message_status
  simp [hm, hc, hmem]
  exact fun h => hpart.resolve_left h

/-- Witness for the amended C5 at a concrete input. -/
theorem own_message_update_rejected_400_witness :
    update_message_status c5db "m1" SchemaMessageStatus.delivered (some "u")
      = (.error ⟨400, "You cannot update the status of your own messages"⟩, c5db) :=
  own_message_update_rejected_400 c5db "m1"
    { id := "m1", conversation_id := "c1", sender_id := "u", content := "hi",
      timestamp := 0, status := .sent }
    { id := "c1", user1_id := "u", user2_id := "v", request_id := "q1",
      created_at := 0 }
    SchemaMessageStatus.delivered (by decide) (by decide) (Or.inl rfl)

/-- Counterexample to C4: message `m1` is at status `read`; the non-sending
participant `v` requests the backward transition to `sent`, and instead
of being rejected with 400 the call succeeds and persists the backward
move — `update_message_status` has no transition validation at all
(routes/messages.py lines 499–501 assign and commit unconditionally). -/
theorem backward_transition_not_rejected :
    (update_message_status c4db "m1" SchemaMessageStatus.sent (some "v")).1
        = .ok { id := "m1", conversation_id := "c1", sender_id := "u",
                content := "hi", timestamp := 0, status := MessageStatus.sent }
      ∧ (update_message_status c4db "m1" SchemaMessageStatus.sent
          (some "v")).2.messages.map MessageRec.status = [MessageStatus.sent] :=
  ⟨rfl, rfl⟩

/-- Claim C4 as amended: `update_message_status` performs no transition
validation. For a call by a conversation participant who is not the
message's sender: any requested status among the three column values
(`sent`, `delivered`, `read`) is assigned unconditionally — backward
transitions included — and the call returns 200 with the updated
message; the three request-phase schema values (`requested`, `accepted`,
`rejected`) pass request validation but fail the enum-column lookup at
commit, surfacing a server error (500) with nothing persisted. -/
theorem update_status_has_no_transition_check (db : DB) (message_id : String)
    (m : MessageRec) (c : ConversationRec) (u : String)
    (new_status : SchemaMessageStatus)
    (hm : db.messages.find? (fun x => x.id == message_id) = some m)
    (hc : db.conversations.find? (fun x => x.id == m.conversation_id) = some c)
    (hpart : u = c.user1_id ∨ u = c.user2_id)
    (hnotSender : m.sender_id ≠ u) :
    (∀ v, statusToColumn new_status = some v →
      update_message_status db message_id new_status (some u)
        = (.ok { m with status := v },
           { db with messages := db.messages.map (fun x =>
               if x.id == message_id then { m with status := v } else x) }))
    ∧ (statusToColumn new_status = none →
      update_message_status db message_id new_status (some u)
        = (.error ⟨500, "Internal Server Error"⟩, db)) := by
  have hmem : (some u == some c.user1_id || some u == some c.user2_id) = true := by
    rcases hpart with h | h <;> simp [h]
  constructor
  · intro v hv
    unfold update_message_status
    simp [hm, hc, hv, hmem, hnotSender]
    exact fun h => hpart.resolve_left h
  · intro hv
    unfold update_message_status
    simp [hm, hc, hv, hmem, hnotSender]
    exact fun h => hpart.resolve_left h

/-- Witness for the amended C4 at a concrete input: the backward transition
`read → sent` requested by the non-sender is applied and persisted. -/
theorem update_status_has_no_transition_check_witness :
    update_message_status c4db "m1" SchemaMessageStatus.sent (some "v")
      = (.ok { id := "m1", conversation_id := "c1", sender_id := "u",
               content := "hi", timestamp := 0, status := MessageStatus.sent },
         { c4db with messages := c4db.messages.map (fun x =>
             if x.id == "m1" then
               { id := "m1", conversation_id := "c1", sender_id := "u",
                 content := "hi", timestamp := 0, status := MessageStatus.sent }
             else x) }) :=
  (update_status_has_no_transition_check c4db "m1"
    { id := "m1", conversation_id := "c1", sender_id := "u", content := "hi",
      timestamp := 0, status := .read }
    { id := "c1", user1_id := "u", user2_id := "v", request_id := "q1",
      created_at := 0 }
    "v" SchemaMessageStatus.sent (by decide) (by decide) (Or.inr rfl)
    (by decide)).1 MessageStatus.sent rfl

/-- Claim C1 (code bug, evaluated at the failing input): starting from
`c1db` — two pending requests between users `a` and `b`, one in each
direction, each about the other's vent post, a state reachable by two
`create_message_request` calls — accepting the first request creates a
conversation for the pair, and accepting the second afterwards does NOT
fail with Conflict: the accept tail has no conversation-uniqueness check,
returns success, and commits a second Conversation for the same
unordered pair. (Independently, the deployed endpoint never returns 409
at all: its status gate rejects every payload with 400, as the last
conjunct shows at the same state.) -/
theorem double_accept_creates_second_conversation :
    (respondDecision c1s1 c1req2 .accepted "c2" "m2" "n2").1.type = "success"
      ∧ ((respondDecision c1s1 c1req2 .accepted "c2" "m2" "n2").2.conversations.filter
          (fun c => (c.user1_id == "a" && c.user2_id == "b")
            || (c.user1_id == "b" && c.user2_id == "a"))).length = 2
      ∧ (respond_to_message_request c1s1 "q2" "accepted" (some "a")
          "c2" "m2" "n2").1
        = .error ⟨400, "Status must be accepted or rejected"⟩ :=
  ⟨rfl, rfl, rfl⟩

/-- Claim C3 (code bug, evaluated at the failing input): accepting the
pending request of `c3db` (sender `s`, receiver `r`, vent post `v`) does
create exactly one Conversation holding exactly one Message with the
request's initial text, authored by `s`, at status `sent`, and one
Notification row with related type `post` and related id `v` — but that
Notification carries NO recipient: `send_notification` drops its
`user_id` argument, so no notification whose recipient is `s` exists.
(And the deployed endpoint never even reaches this tail: the last
conjunct shows the receiver's `"accepted"` payload is rejected with
400.) -/
theorem accept_notification_has_no_recipient :
    (respondDecision c3db c3req .accepted "c1" "m1" "n1").2.conversations
        = [{ id := "c1", user1_id := "s", user2_id := "r",
             request_id := "q1", created_at := 1 }]
      ∧ (respondDecision c3db c3req .accepted "c1" "m1" "n1").2.messages
        = [{ id := "m1", conversation_id := "c1", sender_id := "s",
             content := "here to talk", timestamp := 2,
             status := MessageStatus.sent }]
      ∧ (respondDecision c3db c3req .accepted "c1" "m1" "n1").2.notifications.map
          NotificationRec.related_content_type = [some .post]
      ∧ (respondDecision c3db c3req .accepted "c1" "m1" "n1").2.notifications.map
          NotificationRec.related_content_id = [some "v"]
      ∧ (∀ n ∈ (respondDecision c3db c3req .accepted "c1" "m1" "n1").2.notifications,
          n.user_id ≠ some "s")
      ∧ (respond_to_message_request c3db "q1" "accepted" (some "r")
          "c1" "m1" "n1").1
        = .error ⟨400, "Status must be accepted or rejected"⟩ := by
  refine ⟨rfl, rfl, rfl, rfl, ?_, rfl⟩
  decide

/-- Counterexample to C6: `create_message_request` has no self-messaging
check. With sender = receiver = `a`, the owner of vent post `p`, the
call is not rejected — it succeeds with 201, persisting a MessageRequest
whose sender and receiver are the same user, and writing a notification
row. -/
theorem self_request_not_rejected :
    (create_message_request c6db (some "a") "a" "p" "hi" "q1" "n1").1
        = .ok { id := "q1", sender_id := "a", receiver_id := "a",
                post_id := "p", initial_message := "hi", timestamp := 0,
                status := .pending }
      ∧ (create_message_request c6db (some "a") "a" "p" "hi" "q1"
          "n1").2.message_requests.length = 1
      ∧ (create_message_request c6db (some "a") "a" "p" "hi" "q1"
          "n1").2.notifications.length = 1 :=
  ⟨rfl, rfl, rfl⟩

/-- Claim C6 as amended: a create-request call whose sender equals its
receiver is not specially rejected. Whenever that user exists, owns the
referenced vent post, and the duplicate-pending-request and
existing-conversation checks pass, the call succeeds (201), appending a
self-request row and a notification row. -/
theorem create_request_no_self_check (db : DB) (u post_id msg reqId notifId : String)
    (p : PostRec)
    (huser : (db.users.find? (fun x => x.id == u)).isSome)
    (hpost : db.posts.find? (fun x => x.id == post_id) = some p)
    (howner : p.user_id = some u)
    (hnodup : db.message_requests.find? (fun r =>
        r.sender_id == u && r.receiver_id == u && r.post_id == post_id
          && r.status == MessageRequestStatus.pending) = none)
    (hnoconv : db.conversations.find? (fun c =>
        (c.user1_id == u && c.user2_id == u)
          || (c.user1_id == u && c.user2_id == u)) = none) :
    create_message_request db (some u) u post_id msg reqId notifId
      = (.ok { id := reqId, sender_id := u, receiver_id := u,
               post_id := post_id, initial_message := msg,
               timestamp := db.now, status := .pending },
         { db with
             message_requests := db.message_requests
               ++ [{ id := reqId, sender_id := u, receiver_id := u,
                     post_id := post_id, initial_message := msg,
                     timestamp := db.now, status := .pending }]
             notifications := db.notifications
               ++ [{ id := notifId, user_id := none,
                     message := "Someone wants to talk about your vent post",
                     is_read := false, timestamp := db.now + 1,
                     related_content_type := some .post,
                     related_content_id := some post_id }]
             now := db.now + 1 + 1 }) := by
  have hu' : ¬∀ x ∈ db.users, ¬x.id = u := by
    rcases Option.isSome_iff_exists.mp huser with ⟨a, ha⟩
    intro hall
    exact hall a (List.mem_of_find?_eq_some ha) (by simpa using List.find?_some ha)
  have hnc : ¬∃ x ∈ db.conversations, x.user1_id = u ∧ x.user2_id = u := by
    rintro ⟨c, hc, h1, h2⟩
    have h := List.find?_eq_none.mp hnoconv c hc
    simp [h1, h2] at h
  unfold create_message_request
  cases hcat : p.category
  simp [huser, hpost, howner, hnodup, hnoconv, hcat, PostCategory.value,
    send_notification, hu', hnc]

/-- Witness for the amended C6 at a concrete input. -/
theorem create_request_no_self_check_witness :
    create_message_request c6db (some "a") "a" "p" "hi" "q1" "n1"
      = (.ok { id := "q1", sender_id := "a", receiver_id := "a",
               post_id := "p", initial_message := "hi", timestamp := 0,
               status := .pending },
         { c6db with
             message_requests := c6db.message_requests
               ++ [{ id := "q1", sender_id := "a", receiver_id := "a",
                     post_id := "p", initial_message := "hi", timestamp := 0,
                     status := .pending }]
             notifications := c6db.notifications
               ++ [{ id := "n1", user_id := none,
                     message := "Someone wants to talk about your vent post",
                     is_read := false, timestamp := 1,
                     related_content_type := some .post,
                     related_content_id := some "p" }]
             now := 2 }) :=
  create_request_no_self_check c6db "a" "p" "hi" "q1" "n1"
    { id := "p", user_id := some "a", category := .vent }
    (by decide) (by decide) rfl (by decide) (by decide)

/-- Counterexample to C8: request `q1` of `c8db` is referenced by
conversation `c1`; the admin delete fails — but with HTTP 400, not the
HTTP 409 Conflict the claim states (routes/messages.py lines 527–530
raise `status_code=400`). The row stays in place. -/
theorem referenced_request_delete_is_400_not_409 :
    delete_message_request c8db "q1" true
      = (.error ⟨400, "Cannot delete request with an active conversation"⟩, c8db)
      ∧ (∀ d : String,
          (delete_message_request c8db "q1" true).1 ≠ .error ⟨409, d⟩) := by
  refine ⟨rfl, ?_⟩
  intro d h
  rw [show (delete_message_request c8db "q1" true).1
      = .error ⟨400, "Cannot delete request with an active conversation"⟩ from rfl] at h
  simp at h

/-- Claim C8 as amended: for an admin caller and an existing request, the
delete-request endpoint fails with HTTP **400** (not 409) and leaves the
row in place when some Conversation references the request; when no
Conversation references it, the row is deleted and the call succeeds
(204 per the route decorator). -/
theorem delete_request_referential_check (db : DB) (request_id : String)
    (r : MessageRequestRec)
    (hr : db.message_requests.find? (fun x => x.id == request_id) = some r) :
    ((db.conversations.find? (fun c => c.request_id == request_id)).isSome →
      delete_message_request db request_id true
        = (.error ⟨400, "Cannot delete request with an active conversation"⟩, db))
    ∧ ((db.conversations.find? (fun c => c.request_id == request_id)).isNone →
      delete_message_request db request_id true
        = (.ok (), { db with message_requests :=
            db.message_requests.filter (fun x => x.id != request_id) })) := by
  constructor
  · intro hconv
    unfold delete_message_request
    simp [hr, hconv]
  · intro hconv
    unfold delete_message_request
    simp [hr, Option.isNone_iff_eq_none.mp hconv]

/-- Witness for the amended C8 at concrete inputs: the referenced request
`q1` is refused with 400; the unreferenced request `q2` is deleted. -/
theorem delete_request_referential_check_witness :
    (delete_message_request c8db "q1" true
        = (.error ⟨400, "Cannot delete request with an active conversation"⟩, c8db))
      ∧ (delete_message_request c8db "q2" true
        = (.ok (), { c8db with message_requests :=
            c8db.message_requests.filter (fun x => x.id != "q2") })) :=
  ⟨(delete_request_referential_check c8db "q1"
      { id := "q1", sender_id := "u", receiver_id := "v", post_id := "p",
        initial_message := "hi", timestamp := 0, status := .accepted }
      (by decide)).1 (by decide),
   (delete_request_referential_check c8db "q2"
      { id := "q2", sender_id := "u", receiver_id := "v", post_id := "p2",
        initial_message := "hi2", timestamp := 1, status := .pending }
      (by decide)).2 (by decide)⟩

/-! ## Helper lemmas for the listing side effect (C7) -/

/-- Inserting below every element of a list leaves it at the head. -/
theorem insertByTimestamp_of_le (m : MessageRec) (l : List MessageRec)
    (h : ∀ n ∈ l, m.timestamp ≤ n.timestamp) :
    insertByTimestamp m l = m :: l := by
  cases l with
  | nil => rfl
  | cons n rest => simp [insertByTimestamp, h n (List.mem_cons_self n rest)]

/-- Sorting a list already ordered by timestamp is the identity. -/
theorem orderByTimestamp_of_sorted (l : List MessageRec)
    (h : l.Pairwise (fun a b => a.timestamp ≤ b.timestamp)) :
    orderByTimestamp l = l := by
  induction l with
  | nil => rfl
  | cons m rest ih =>
    rw [orderByTimestamp, ih (List.Pairwise.of_cons h)]
    exact insertByTimestamp_of_le m rest (List.pairwise_cons.mp h).1

/-- `markRead` does not change the conversation a message belongs to. -/
theorem markRead_conversation_id (u : Option String) (m : MessageRec) :
    (markRead u m).conversation_id = m.conversation_id := by
  unfold markRead; split <;> rfl

/-- `markRead` does not change a message's timestamp. -/
theorem markRead_timestamp (u : Option String) (m : MessageRec) :
    (markRead u m).timestamp = m.timestamp := by
  unfold markRead; split <;> rfl

/-- `markRead` does not change a message's sender. -/
theorem markRead_sender_id (u : Option String) (m : MessageRec) :
    (markRead u m).sender_id = m.sender_id := by
  unfold markRead; split <;> rfl

/-- `markRead` is idempotent. -/
theorem markRead_idem (u : Option String) (m : MessageRec) :
    markRead u (markRead u m) = markRead u m := by
  unfold markRead
  by_cases h : (some m.sender_id != u && m.status != MessageStatus.read) = true
  · simp [h]
  · simp [h]

/-- After `markRead` on behalf of `u`, a message from any other sender is at
status `read`. -/
theorem markRead_read_of_ne (u : String) (m : MessageRec)
    (h : m.sender_id ≠ u) :
    (markRead (some u) m).status = MessageStatus.read := by
  unfold markRead
  by_cases hr : m.status = MessageStatus.read
  · simp [hr]
  · simp [h, hr]

/-- `markIf` is idempotent. -/
theorem markIf_idem (u : Option String) (cid : String) (m : MessageRec) :
    markIf u cid (markIf u cid m) = markIf u cid m := by
  unfold markIf
  by_cases h : (m.conversation_id == cid) = true
  · simp [h, markRead_conversation_id, markRead_idem]
  · simp [h]

/-- Filtering the conversation out of the updated table is the same as
updating the filtered conversation. -/
theorem filter_map_markIf (u : Option String) (cid : String)
    (l : List MessageRec) :
    (l.map (markIf u cid)).filter (fun m => m.conversation_id == cid)
      = (l.filter (fun m => m.conversation_id == cid)).map (markRead u) := by
  induction l with
  | nil => rfl
  | cons m rest ih =>
    by_cases h : (m.conversation_id == cid) = true
    · simp [markIf, List.filter_cons, h, markRead_conversation_id, ih]
    · simp [markIf, List.filter_cons, h, ih]

/-- Applying `markRead` to an already-marked list changes nothing. -/
theorem map_markRead_idem (u : Option String) (l : List MessageRec) :
    (l.map (markRead u)).map (markRead u) = l.map (markRead u) := by
  rw [List.map_map]
  exact List.map_congr_left (fun m _ => markRead_idem u m)

/-- Applying `markIf` to an already-updated table changes nothing. -/
theorem map_markIf_idem (u : Option String) (cid : String)
    (l : List MessageRec) :
    (l.map (markIf u cid)).map (markIf u cid) = l.map (markIf u cid) := by
  rw [List.map_map]
  exact List.map_congr_left (fun m _ => markIf_idem u cid m)

/-- `markRead` preserves the timestamp ordering of a list. -/
theorem pairwise_map_markRead (u : Option String) (l : List MessageRec)
    (h : l.Pairwise (fun a b => a.timestamp ≤ b.timestamp)) :
    (l.map (markRead u)).Pairwise (fun a b => a.timestamp ≤ b.timestamp) := by
  rw [List.pairwise_map]
  exact h.imp (fun hab => by simpa [markRead_timestamp] using hab)

/-- Claim C7: for a conversation `cid` and a participant `u`,
`get_conversation_messages` returns all of the conversation's messages in
stored (creation/timestamp) order, with every returned message authored
by the other participant advanced to `read`, and persists exactly that
marking; an immediate second call returns the same messages in the same
state and changes nothing further — idempotent in content. The
`Pairwise` hypothesis is the store invariant that message timestamps are
monotonically assigned at insertion. -/
theorem list_messages_marks_read_and_is_idempotent (db : DB) (cid : String)
    (conv : ConversationRec) (u : String)
    (hconv : db.conversations.find? (fun c => c.id == cid) = some conv)
    (hpart : u = conv.user1_id ∨ u = conv.user2_id)
    (hsorted : (db.messages.filter (fun m => m.conversation_id == cid)).Pairwise
      (fun a b => a.timestamp ≤ b.timestamp)) :
    get_conversation_messages db cid (some u)
        = (.ok ((db.messages.filter (fun m => m.conversation_id == cid)).map
            (markRead (some u))),
           { db with messages := db.messages.map (markIf (some u) cid) })
    ∧ (∀ m ∈ (db.messages.filter (fun m => m.conversation_id == cid)).map
          (markRead (some u)), m.sender_id ≠ u → m.status = MessageStatus.read)
    ∧ get_conversation_messages
          { db with messages := db.messages.map (markIf (some u) cid) }
          cid (some u)
        = (.ok ((db.messages.filter (fun m => m.conversation_id == cid)).map
            (markRead (some u))),
           { db with messages := db.messages.map (markIf (some u) cid) }) := by
  have hmem : (some u == some conv.user1_id
      || some u == some conv.user2_id) = true := by
    rcases hpart with h | h <;> simp [h]
  refine ⟨?_, ?_, ?_⟩
  · unfold get_conversation_messages
    rw [hconv]
    simp [hmem, orderByTimestamp_of_sorted _ hsorted]
    exact fun h => hpart.resolve_left h
  · intro m hm hne
    rcases List.mem_map.mp hm with ⟨m0, hm0, rfl⟩
    apply markRead_read_of_ne
    intro h
    exact hne (by rw [markRead_sender_id, h])
  · unfold get_conversation_messages
    rw [show ({ db with messages := db.messages.map (markIf (some u) cid) }
        : DB).conversations.find? (fun c => c.id == cid)
      = some conv from hconv]
    have hfilter :
        ({ db with messages := db.messages.map (markIf (some u) cid) }
          : DB).messages.filter (fun m => m.conversation_id == cid)
        = (db.messages.filter (fun m => m.conversation_id == cid)).map
            (markRead (some u)) := filter_map_markIf (some u) cid db.messages
    simp only [hfilter, hmem,
      orderByTimestamp_of_sorted _ (pairwise_map_markRead (some u) _ hsorted),
      map_markRead_idem, map_markIf_idem]
    simp

/-- Witness for C7 at a concrete input: participant `u` lists conversation
`c1` of `c7db`; the counterpart's message comes back (and is persisted)
at `read`, and the immediate second call returns the same content with no
further change. -/
theorem list_messages_marks_read_and_is_idempotent_witness :
    get_conversation_messages c7db "c1" (some "u")
        = (.ok ((c7db.messages.filter (fun m => m.conversation_id == "c1")).map
            (markRead (some "u"))),
           { c7db with messages := c7db.messages.map (markIf (some "u") "c1") })
    ∧ get_conversation_messages
          { c7db with messages := c7db.messages.map (markIf (some "u") "c1") }
          "c1" (some "u")
        = (.ok ((c7db.messages.filter (fun m => m.conversation_id == "c1")).map
            (markRead (some "u"))),
           { c7db with messages := c7db.messages.map (markIf (some "u") "c1") }) := by
  have h := list_messages_marks_read_and_is_idempotent c7db "c1"
    { id := "c1", user1_id := "u", user2_id := "v", request_id := "q1",
      created_at := 0 }
    "u" (by decide) (Or.inl rfl) (by decide)
  exact ⟨h.1, h.2.2⟩

/-! ## Helper lemmas for the bulk purge (C9) -/

/-- Not being contained in a cons splits into the two boolean conjuncts the
purge loop produces. -/
theorem bne_and_not_contains (x a : String) (as : List String) :
    ((!(as.contains x)) && (x != a)) = !((a :: as).contains x) := by
  rw [List.contains_cons]
  cases h1 : x == a <;> cases h2 : as.contains x <;> simp [bne, h1, h2]

/-- Closed form of the purge loop: folding `purgeConversation` over a list
of conversations removes exactly the messages of, and the rows of, the
conversations whose id occurs in the list, and touches nothing else. -/
theorem purge_foldl_eq (convs : List ConversationRec) (db : DB) :
    convs.foldl purgeConversation db
      = { db with
            messages := db.messages.filter (fun m =>
              !((convs.map ConversationRec.id).contains m.conversation_id))
            conversations := db.conversations.filter (fun c =>
              !((convs.map ConversationRec.id).contains c.id)) } := by
  induction convs generalizing db with
  | nil => simp
  | cons c rest ih =>
    rw [List.foldl_cons, ih]
    unfold purgeConversation
    congr 1
    · rw [List.filter_filter]
      apply List.filter_congr
      intro x _
      rw [List.map_cons]
      exact bne_and_not_contains x.id c.id (rest.map ConversationRec.id)
    · rw [List.filter_filter]
      apply List.filter_congr
      intro m _
      rw [List.map_cons]
      exact bne_and_not_contains m.conversation_id c.id
        (rest.map ConversationRec.id)

/-- With conversation ids unique (the primary key), a conversation's id
occurs among the ids of the filtered conversations exactly when the
conversation itself satisfies the filter. -/
theorem contains_filter_id_iff (l : List ConversationRec)
    (p : ConversationRec → Bool)
    (hnodup : (l.map ConversationRec.id).Nodup)
    (c : ConversationRec) (hc : c ∈ l) :
    ((l.filter p).map ConversationRec.id).contains c.id = p c := by
  cases hp : p c with
  | true =>
    have hmem : c.id ∈ (l.filter p).map ConversationRec.id :=
      List.mem_map_of_mem _ (List.mem_filter.mpr ⟨hc, hp⟩)
    simpa using hmem
  | false =>
    by_contra h
    rw [Bool.not_eq_false] at h
    have hmem : c.id ∈ (l.filter p).map ConversationRec.id := by
      simpa using h
    rcases List.mem_map.mp hmem with ⟨c', hc', hid⟩
    have hc'l : c' ∈ l := (List.mem_filter.mp hc').1
    have : c' = c := List.inj_on_of_nodup_map hnodup hc'l hc hid
    rw [this] at hc'
    rw [(List.mem_filter.mp hc').2] at hp
    exact Bool.true_eq_false.mp hp

/-- Claim C9: after admin delete-all-user-data for user `U` succeeds, no
Conversation has `U` as a participant, no Message belongs to any of the
purged conversations, and no MessageRequest has `U` as sender or
receiver, while every conversation, message, and request not referencing
`U` — and every other table and the store clock — is unchanged; the call
commits once at its end, so the sequential embedding exposes no partial
state. Conversation ids are assumed pairwise distinct (the table's
primary key). -/
theorem delete_user_data_purges (db : DB) (U : String)
    (hnodup : (db.conversations.map ConversationRec.id).Nodup)
    (out : Except HttpException Unit × DB)
    (hout : delete_user_data db U true = out) :
    out.1 = .ok ()
    ∧ out.2.conversations
        = db.conversations.filter (fun c => !(c.user1_id == U || c.user2_id == U))
    ∧ out.2.messages = db.messages.filter (fun m =>
        !(((db.conversations.filter (fun c =>
            c.user1_id == U || c.user2_id == U)).map
            ConversationRec.id).contains m.conversation_id))
    ∧ out.2.message_requests = db.message_requests.filter (fun r =>
        !(r.sender_id == U || r.receiver_id == U))
    ∧ out.2.users = db.users
    ∧ out.2.posts = db.posts
    ∧ out.2.notifications = db.notifications
    ∧ out.2.now = db.now
    ∧ (∀ c ∈ out.2.conversations, c.user1_id ≠ U ∧ c.user2_id ≠ U)
    ∧ (∀ m ∈ out.2.messages, ∀ c ∈ db.conversations,
        (c.user1_id = U ∨ c.user2_id = U) → m.conversation_id ≠ c.id)
    ∧ (∀ r ∈ out.2.message_requests, r.sender_id ≠ U ∧ r.receiver_id ≠ U) := by
  subst hout
  have hres : delete_user_data db U true
      = (.ok (), { db with
          messages := db.messages.filter (fun m =>
            !(((db.conversations.filter (fun c =>
                c.user1_id == U || c.user2_id == U)).map
                ConversationRec.id).contains m.conversation_id))
          conversations := db.conversations.filter (fun c =>
            !(((db.conversations.filter (fun c =>
                c.user1_id == U || c.user2_id == U)).map
                ConversationRec.id).contains c.id))
          message_requests := db.message_requests.filter (fun r =>
            !(r.sender_id == U || r.receiver_id == U)) }) := by
    unfold delete_user_data
    simp only [purge_foldl_eq]
    rfl
  have hconvs : (delete_user_data db U true).2.conversations
      = db.conversations.filter (fun c =>
          !(c.user1_id == U || c.user2_id == U)) := by
    rw [hres]
    apply List.filter_congr
    intro c hc
    rw [contains_filter_id_iff db.conversations _ hnodup c hc]
  refine ⟨by rw [hres], hconvs, by rw [hres], by rw [hres], by rw [hres],
    by rw [hres], by rw [hres], by rw [hres], ?_, ?_, ?_⟩
  · rw [hconvs]
    intro c hc
    have h := (List.mem_filter.mp hc).2
    constructor <;> intro heq <;> simp [heq] at h
  · rw [hres]
    intro m hm c hc hcu heq
    have h1 := (List.mem_filter.mp hm).2
    have hcid : c.id ∈ (db.conversations.filter (fun c =>
        c.user1_id == U || c.user2_id == U)).map ConversationRec.id := by
      apply List.mem_map_of_mem
      apply List.mem_filter.mpr
      exact ⟨hc, by rcases hcu with h | h <;> simp [h]⟩
    have h2 : ((db.conversations.filter (fun c =>
        c.user1_id == U || c.user2_id == U)).map
        ConversationRec.id).contains m.conversation_id = true := by
      rw [heq]
      exact List.elem_iff.mpr hcid
    rw [h2] at h1
    simp at h1
  · rw [hres]
    intro r hr
    have h := (List.mem_filter.mp hr).2
    constructor <;> intro heq <;> simp [heq] at h

/-- Witness for C9 at a concrete input: purging user `u` from `c9db` leaves
only the `x`–`y` conversation and its message, and no request involving
`u`. -/
theorem delete_user_data_purges_witness :
    (c9db.conversations.map ConversationRec.id).Nodup
    ∧ (delete_user_data c9db "u" true).1 = .ok ()
    ∧ (delete_user_data c9db "u" true).2.conversations
        = [{ id := "c2", user1_id := "x", user2_id := "y",
             request_id := "q2", created_at := 4 }]
    ∧ (∀ r ∈ (delete_user_data c9db "u" true).2.message_requests,
        r.sender_id ≠ "u" ∧ r.receiver_id ≠ "u") := by
  have h := delete_user_data_purges c9db "u" (by decide)
    (delete_user_data c9db "u" true) rfl
  refine ⟨by decide, h.1, ?_, h.2.2.2.2.2.2.2.2.2.2⟩
  rw [h.2.1]
  rfl
